import Mathlib

/-
Shallow embedding of the gravity-simulator physics core
(CelestialBody.cpp / Physics.cpp / SolarSystem.cpp / InputHandler.cpp).

Machine floating-point values (`float` / `double`) are modelled by exact
rationals.  The square root (`std::sqrt`) has no exact rational
counterpart, so every definition that needs it is parameterised by a
function `sq : ℚ → ℚ` standing for the square-root routine; theorems that
depend on actual square-root behaviour take the corresponding facts
(such as `sq 0 = 0`) as hypotheses, and concrete evaluations instantiate
`sq` with `sqrtW`, which agrees with the true square root at every
argument those evaluations produce.
-/

namespace Gravity

/-- Planar vector of rationals, modelling `sf::Vector2f`. -/
structure Vec2 where
  x : ℚ
  y : ℚ
deriving DecidableEq

namespace Vec2

def zero : Vec2 := ⟨0, 0⟩

def add (a b : Vec2) : Vec2 := ⟨a.x + b.x, a.y + b.y⟩

def sub (a b : Vec2) : Vec2 := ⟨a.x - b.x, a.y - b.y⟩

def neg (a : Vec2) : Vec2 := ⟨-a.x, -a.y⟩

/-- Vector times scalar, modelling `sf::Vector2f::operator*(float)`. -/
def smul (a : Vec2) (c : ℚ) : Vec2 := ⟨a.x * c, a.y * c⟩

/-- Vector divided by scalar, modelling `sf::Vector2f::operator/(float)`. -/
def sdiv (a : Vec2) (c : ℚ) : Vec2 := ⟨a.x / c, a.y / c⟩

end Vec2

instance : Add Vec2 := ⟨Vec2.add⟩

instance : Sub Vec2 := ⟨Vec2.sub⟩

instance : Neg Vec2 := ⟨Vec2.neg⟩

instance : HMul Vec2 ℚ Vec2 := ⟨Vec2.smul⟩

instance : HDiv Vec2 ℚ Vec2 := ⟨Vec2.sdiv⟩

/-- Spatial vector of rationals, modelling `Vector3f` from CelestialBody.h. -/
structure Vec3 where
  x : ℚ
  y : ℚ
  z : ℚ
deriving DecidableEq

namespace Vec3

def zero : Vec3 := ⟨0, 0, 0⟩

def add (a b : Vec3) : Vec3 := ⟨a.x + b.x, a.y + b.y, a.z + b.z⟩

def sub (a b : Vec3) : Vec3 := ⟨a.x - b.x, a.y - b.y, a.z - b.z⟩

def neg (a : Vec3) : Vec3 := ⟨-a.x, -a.y, -a.z⟩

def smul (a : Vec3) (c : ℚ) : Vec3 := ⟨a.x * c, a.y * c, a.z * c⟩

def sdiv (a : Vec3) (c : ℚ) : Vec3 := ⟨a.x / c, a.y / c, a.z / c⟩

/-- Orthographic projection, modelling `Vector3f::to2D`. -/
def to2D (a : Vec3) : Vec2 := ⟨a.x, a.y⟩

/-- Construction of a `Vector3f` from an `sf::Vector2f` (z component zero). -/
def ofVec2 (a : Vec2) : Vec3 := ⟨a.x, a.y, 0⟩

end Vec3

instance : Add Vec3 := ⟨Vec3.add⟩

instance : Sub Vec3 := ⟨Vec3.sub⟩

instance : Neg Vec3 := ⟨Vec3.neg⟩

instance : HMul Vec3 ℚ Vec3 := ⟨Vec3.smul⟩

instance : HDiv Vec3 ℚ Vec3 := ⟨Vec3.sdiv⟩

/-- Square-root model used to instantiate the abstract square-root
parameter in concrete evaluations: it agrees with the true square root on
the perfect squares the concrete states produce (0, 1, 4, 25) and
returns 0 elsewhere. -/
def sqrtW (q : ℚ) : ℚ :=
  if q = 0 then 0 else if q = 1 then 1 else if q = 4 then 2 else if q = 25 then 5 else 0

namespace Physics

/-- Gravitational constant `6.67430e-11` (Physics.h). -/
def G : ℚ := 66743 / 10 ^ 15

/-- Astronomical unit `1.496e11` meters (Physics.h). -/
def AU : ℚ := 1496 * 10 ^ 8

/-- Earth mass `5.972e24` kg (Physics.h). -/
def EARTH_MASS : ℚ := 5972 * 10 ^ 21

/-- Sun mass `1.989e30` kg (Physics.h). -/
def SUN_MASS : ℚ := 1989 * 10 ^ 27

/-- Distance scale factor `1e-9` (Physics.h): 1 pixel = 1e9 meters. -/
def DISTANCE_SCALE : ℚ := 1 / 10 ^ 9

/-- Time scale factor `86400.0` (Physics.h): 1 simulation second = 1 day. -/
def TIME_SCALE : ℚ := 86400

/-- Magnitude of a planar vector (`Physics::magnitude`), with the square
root abstracted as `sq`. -/
def magnitude (sq : ℚ → ℚ) (v : Vec2) : ℚ := sq (v.x * v.x + v.y * v.y)

/-- Unit direction (`Physics::normalize`): the zero vector when the
magnitude is zero, otherwise the vector divided by its magnitude. -/
def normalize (sq : ℚ → ℚ) (v : Vec2) : Vec2 :=
  if magnitude sq v = 0 then Vec2.zero else v / magnitude sq v

/-- Distance between two planar points (`Physics::distance`). -/
def distance (sq : ℚ → ℚ) (p1 p2 : Vec2) : ℚ :=
  sq ((p2.x - p1.x) * (p2.x - p1.x) + (p2.y - p1.y) * (p2.y - p1.y))

/-- Conversion from meters to simulation pixels (`Physics::metersToPixels`). -/
def metersToPixels (meters : ℚ) : ℚ := meters * DISTANCE_SCALE

/-- Conversion from simulation pixels to meters (`Physics::pixelsToMeters`). -/
def pixelsToMeters (pixels : ℚ) : ℚ := pixels / DISTANCE_SCALE

end Physics

/-- Magnitude of a spatial vector (`Vector3f::magnitude`). -/
def Vec3.magnitude (sq : ℚ → ℚ) (v : Vec3) : ℚ := sq (v.x * v.x + v.y * v.y + v.z * v.z)

/-- Unit direction of a spatial vector (`Vector3f::normalized`): the zero
vector unless the magnitude is positive. -/
def Vec3.normalized (sq : ℚ → ℚ) (v : Vec3) : Vec3 :=
  if 0 < Vec3.magnitude sq v then v / Vec3.magnitude sq v else Vec3.zero

/-- A celestial body (CelestialBody.h).  The color and the visual radius
are presentation attributes not touched by any claim; the visual radius is
kept for fidelity, the color is dropped. -/
structure CelestialBody where
  name : String
  mass : ℚ
  radius : ℚ
  position : Vec2
  velocity : Vec2
  force : Vec2
  position3D : Vec3
  velocity3D : Vec3
  force3D : Vec3
  previousPosition3D : Vec3
  visualRadius : ℚ
deriving DecidableEq

instance : Inhabited CelestialBody :=
  ⟨⟨"", 0, 0, Vec2.zero, Vec2.zero, Vec2.zero, Vec3.zero, Vec3.zero, Vec3.zero, Vec3.zero, 0⟩⟩

namespace CelestialBody

/-- Constructor (CelestialBody.cpp): forces start at zero, the spatial
state is seeded from the planar arguments with zero z component, and the
visual radius is `radius * DISTANCE_SCALE`. -/
def make (name : String) (mass radius : ℚ) (position velocity : Vec2) : CelestialBody :=
  { name := name, mass := mass, radius := radius, position := position,
    velocity := velocity, force := Vec2.zero,
    position3D := Vec3.ofVec2 position, velocity3D := Vec3.ofVec2 velocity,
    force3D := Vec3.zero, previousPosition3D := Vec3.zero,
    visualRadius := radius * Physics.DISTANCE_SCALE }

/-- `CelestialBody::addForce`: accumulate a planar force. -/
def addForce (b : CelestialBody) (f : Vec2) : CelestialBody :=
  { b with force := b.force + f }

/-- `CelestialBody::addForce3D`: accumulate a spatial force and keep the
planar accumulator in sync with its projection. -/
def addForce3D (b : CelestialBody) (f : Vec3) : CelestialBody :=
  { b with force3D := b.force3D + f, force := b.force + f.to2D }

/-- `CelestialBody::update`: planar semi-implicit Euler step.  The elapsed
time is first multiplied by `Physics::TIME_SCALE`; acceleration is
force / mass; the velocity is updated first and the position update then
uses the already-updated velocity. -/
def update (b : CelestialBody) (deltaTime : ℚ) : CelestialBody :=
  let dt := deltaTime * Physics.TIME_SCALE
  let acceleration := b.force / b.mass
  let velocity' := b.velocity + acceleration * dt
  let position' := b.position + velocity' * dt
  { b with velocity := velocity', position := position' }

/-- `CelestialBody::resetForces`: zero both force accumulators. -/
def resetForces (b : CelestialBody) : CelestialBody :=
  { b with force := Vec2.zero, force3D := Vec3.zero }

/-- `CelestialBody::distanceTo`: planar distance in simulation units. -/
def distanceTo (sq : ℚ → ℚ) (b other : CelestialBody) : ℚ :=
  Physics.distance sq b.position other.position

/-- Clamped planar separation used by `CelestialBody::calculateGravitationalForce`:
the magnitude of the displacement, raised to `1e6` when below it. -/
def clampedDistance (sq : ℚ → ℚ) (body1 body2 : CelestialBody) : ℚ :=
  if Physics.magnitude sq (body2.position - body1.position) < 1000000 then 1000000
  else Physics.magnitude sq (body2.position - body1.position)

/-- Clamped separation converted from simulation units by dividing by
`Physics::DISTANCE_SCALE` (`CelestialBody::calculateGravitationalForce`). -/
def distanceMeters (sq : ℚ → ℚ) (body1 body2 : CelestialBody) : ℚ :=
  clampedDistance sq body1 body2 / Physics.DISTANCE_SCALE

/-- `CelestialBody::calculateGravitationalForce`: pairwise planar force
on `body1` pointing toward `body2`, of magnitude `G*m1*m2/r²` with the
clamped converted separation, rescaled by `DISTANCE_SCALE`. -/
def calculateGravitationalForce (sq : ℚ → ℚ) (body1 body2 : CelestialBody) : Vec2 :=
  let dm := distanceMeters sq body1 body2
  let forceMagnitude := Physics.G * body1.mass * body2.mass / (dm * dm)
  let forceSimulation := forceMagnitude * Physics.DISTANCE_SCALE
  Physics.normalize sq (body2.position - body1.position) * forceSimulation

/-- `CelestialBody::calculateGravitationalForce3D`: same computation in
three components on the spatial state. -/
def calculateGravitationalForce3D (sq : ℚ → ℚ) (body1 body2 : CelestialBody) : Vec3 :=
  let deltaPos := body2.position3D - body1.position3D
  let distance0 := Vec3.magnitude sq deltaPos
  let distance1 := if distance0 < 1000000 then 1000000 else distance0
  let distMeters := distance1 / Physics.DISTANCE_SCALE
  let forceMagnitude := Physics.G * body1.mass * body2.mass / (distMeters * distMeters)
  let forceSimulation := forceMagnitude * Physics.DISTANCE_SCALE
  Vec3.normalized sq deltaPos * forceSimulation

/-- Net spatial force accumulated by the loop in `CelestialBody::update3D`.
The source guards each term with the pointer-identity check
`&body != this`, but `SolarSystem::updatePhysics` passes the copies made
by `getRawBodies`, so the check never fires and the sum runs over the
whole supplied list; the self term is the zero vector because the unit
direction of a zero displacement is zero. -/
def netForce3D (sq : ℚ → ℚ) (b : CelestialBody) (bodies : List CelestialBody) : Vec3 :=
  bodies.foldl (fun acc other => acc + calculateGravitationalForce3D sq b other) Vec3.zero

/-- `CelestialBody::update3D`: below the solar-mass threshold `1.989e30`
the body recomputes its own net force over the supplied list, integrates
by explicit Euler with the elapsed time damped by `0.1`, records the
pre-step spatial position, and projects the new spatial position onto the
planar position; at or above the threshold nothing changes. -/
def update3D (sq : ℚ → ℚ) (bodies : List CelestialBody) (deltaTime : ℚ)
    (b : CelestialBody) : CelestialBody :=
  if b.mass < 1989 * 10 ^ 27 then
    let netForce := netForce3D sq b bodies
    let acceleration := netForce / b.mass
    let effectiveDt := deltaTime * (1 / 10)
    let velocity' := b.velocity3D + acceleration * effectiveDt
    let position' := b.position3D + velocity' * effectiveDt
    { b with velocity3D := velocity', position3D := position',
             previousPosition3D := b.position3D,
             position := ⟨position'.x, position'.y⟩ }
  else b

/-- `CelestialBody::setPosition3D`: sets the spatial position and keeps
the planar position equal to its projection. -/
def setPosition3D (b : CelestialBody) (p : Vec3) : CelestialBody :=
  { b with position3D := p, position := p.to2D }

/-- `CelestialBody::setVelocity3D`: sets the spatial velocity and keeps
the planar velocity equal to its projection. -/
def setVelocity3D (b : CelestialBody) (v : Vec3) : CelestialBody :=
  { b with velocity3D := v, velocity := v.to2D }

/-- `CelestialBody::setPosition`: planar position only. -/
def setPosition (b : CelestialBody) (p : Vec2) : CelestialBody :=
  { b with position := p }

/-- `CelestialBody::setVelocity`: planar velocity only. -/
def setVelocity (b : CelestialBody) (v : Vec2) : CelestialBody :=
  { b with velocity := v }

/-- `CelestialBody::setPreviousPosition3D`. -/
def setPreviousPosition3D (b : CelestialBody) (p : Vec3) : CelestialBody :=
  { b with previousPosition3D := p }

end CelestialBody

/-- Snapshot entry of `SolarSystem::storeInitialConditions` (SolarSystem.h):
one planar position/velocity pair per body. -/
structure InitialCondition where
  position : Vec2
  velocity : Vec2
deriving DecidableEq

/-- Simulation state (SolarSystem.h): ordered body list, pause flag,
time-scale multiplier, spatial-mode flag, and the stored snapshot. -/
structure SolarSystem where
  bodies : List CelestialBody
  paused : Bool
  timeScale : ℚ
  is3DMode : Bool
  initialConditions : List InitialCondition
deriving DecidableEq

namespace SolarSystem

/-- `SolarSystem::setTimeScale`: stores the argument as given. -/
def setTimeScale (s : SolarSystem) (v : ℚ) : SolarSystem :=
  { s with timeScale := v }

/-- `SolarSystem::getTimeScale`. -/
def getTimeScale (s : SolarSystem) : ℚ := s.timeScale

/-- Body of the pair loop in `SolarSystem::calculateGravitationalForces`:
compute the force between bodies `i` and `j`, add it to body `i` and its
negation to body `j`. -/
def applyPairForces (sq : ℚ → ℚ) (bs : List CelestialBody) (i j : ℕ) : List CelestialBody :=
  let f := CelestialBody.calculateGravitationalForce sq (bs.getD i default) (bs.getD j default)
  let bs1 := bs.set i ((bs.getD i default).addForce f)
  bs1.set j ((bs1.getD j default).addForce (-f))

/-- `SolarSystem::calculateGravitationalForces`: double loop over all
index pairs `i < j`. -/
def calculateGravitationalForces (sq : ℚ → ℚ) (bs : List CelestialBody) : List CelestialBody :=
  (List.range bs.length).foldl (fun acc i =>
    (List.range' (i + 1) (bs.length - (i + 1))).foldl
      (fun acc2 j => applyPairForces sq acc2 i j) acc) bs

/-- Spatial branch of `SolarSystem::updatePhysics`: each body in index
order runs `update3D` against a fresh copy of the current body list
(`getRawBodies()` is re-evaluated for every body). -/
def update3DPass (sq : ℚ → ℚ) (bs : List CelestialBody) (deltaTime : ℚ) : List CelestialBody :=
  (List.range bs.length).foldl
    (fun acc i => acc.set i (CelestialBody.update3D sq acc deltaTime (acc.getD i default))) bs

/-- `SolarSystem::updatePhysics`: in spatial mode run the `update3D`
pass; in planar mode accumulate pairwise forces, then integrate each body
and reset its forces. -/
def updatePhysics (sq : ℚ → ℚ) (s : SolarSystem) (deltaTime : ℚ) : SolarSystem :=
  if s.is3DMode then
    { s with bodies := update3DPass sq s.bodies deltaTime }
  else
    let bs := (calculateGravitationalForces sq s.bodies).map
      (fun b => (b.update deltaTime).resetForces)
    { s with bodies := bs }

/-- `SolarSystem::update`: no-op while paused, otherwise a physics step
with the elapsed time multiplied by the current time scale. -/
def update (sq : ℚ → ℚ) (s : SolarSystem) (deltaTime : ℚ) : SolarSystem :=
  if s.paused then s else updatePhysics sq s (deltaTime * s.timeScale)

/-- `SolarSystem::set3DMode` applied to a single body when entering
spatial mode: seed the spatial position and velocity from the planar
state with zero z component, then set the previous spatial position to
`position3D - velocity3D * 0.016`. -/
def seed3D (b : CelestialBody) : CelestialBody :=
  let b1 := b.setPosition3D ⟨b.position.x, b.position.y, 0⟩
  let b2 := b1.setVelocity3D ⟨b1.velocity.x, b1.velocity.y, 0⟩
  b2.setPreviousPosition3D (b2.position3D - b2.velocity3D * ((16 : ℚ) / 1000))

/-- `SolarSystem::set3DMode`: store the flag; when enabling, re-seed
every body's spatial state from its planar state. -/
def set3DMode (s : SolarSystem) (enable : Bool) : SolarSystem :=
  if enable then
    { s with is3DMode := enable, bodies := s.bodies.map seed3D }
  else
    { s with is3DMode := enable }

/-- Kinetic-energy accumulation loop of `SolarSystem::getTotalEnergy`. -/
def kineticSum (bs : List CelestialBody) : ℚ :=
  bs.foldl (fun acc b =>
    acc + 1 / 2 * b.mass * (b.velocity.x * b.velocity.x + b.velocity.y * b.velocity.y)) 0

/-- Pairwise potential-energy term of `SolarSystem::getTotalEnergy`:
`-G*m1*m2/r` with `r` the planar distance returned by `distanceTo`,
which is in simulation (display) units. -/
def potentialPair (sq : ℚ → ℚ) (b1 b2 : CelestialBody) : ℚ :=
  -(Physics.G * b1.mass * b2.mass / CelestialBody.distanceTo sq b1 b2)

/-- Potential-energy double loop of `SolarSystem::getTotalEnergy` over
all index pairs `i < j`. -/
def potentialLoop (sq : ℚ → ℚ) (bs : List CelestialBody) : ℚ :=
  (List.range bs.length).foldl (fun acc i =>
    (List.range' (i + 1) (bs.length - (i + 1))).foldl
      (fun acc2 j => acc2 + potentialPair sq (bs.getD i default) (bs.getD j default)) acc) 0

/-- `SolarSystem::getTotalEnergy`: kinetic sum plus the pairwise
potential loop. -/
def getTotalEnergy (sq : ℚ → ℚ) (s : SolarSystem) : ℚ :=
  kineticSum s.bodies + potentialLoop sq s.bodies

/-- Modelled from the spec: the total-energy formula as the spec words it,
with each pairwise distance converted to physical meters; kept only to be
compared with `getTotalEnergy`, which is translated from the source. -/
def getTotalEnergySpecMeters (sq : ℚ → ℚ) (s : SolarSystem) : ℚ :=
  kineticSum s.bodies +
    (List.range s.bodies.length).foldl (fun acc i =>
      (List.range' (i + 1) (s.bodies.length - (i + 1))).foldl
        (fun acc2 j =>
          acc2 + -(Physics.G * (s.bodies.getD i default).mass * (s.bodies.getD j default).mass /
            Physics.pixelsToMeters
              (CelestialBody.distanceTo sq (s.bodies.getD i default) (s.bodies.getD j default)))) acc) 0

/-- Restoration of one body from its snapshot entry
(`SolarSystem::restoreInitialConditions` loop body): set the planar
position, then the planar velocity, then reset the forces. -/
def restoreBody (ic : InitialCondition) (b : CelestialBody) : CelestialBody :=
  (((b.setPosition ic.position).setVelocity ic.velocity)).resetForces

/-- `SolarSystem::restoreInitialConditions`: a no-op when the snapshot
count differs from the body count, otherwise restore every body from its
snapshot entry. -/
def restoreInitialConditions (s : SolarSystem) : SolarSystem :=
  if s.initialConditions.length ≠ s.bodies.length then s
  else { s with bodies := List.zipWith restoreBody s.initialConditions s.bodies }

/-- `SolarSystem::reset`. -/
def reset (s : SolarSystem) : SolarSystem := restoreInitialConditions s

/-- `SolarSystem::storeInitialConditions`: snapshot every body's planar
position and velocity in order. -/
def storeInitialConditions (s : SolarSystem) : SolarSystem :=
  { s with initialConditions := s.bodies.map (fun b => ⟨b.position, b.velocity⟩) }

end SolarSystem

namespace InputHandler

/-- Time-scale step constant `timeScaleStep_ = 0.5f` (InputHandler.cpp). -/
def timeScaleStep : ℚ := 1 / 2

/-- Speed-up path of `InputHandler::handleTimeScaleInput`: raise the time
scale by `timeScaleStep * deltaTime`, capped at `10.0`. -/
def handleSpeedUp (s : SolarSystem) (deltaTime : ℚ) : SolarSystem :=
  s.setTimeScale (min 10 (s.getTimeScale + timeScaleStep * deltaTime))

/-- Slow-down path of `InputHandler::handleTimeScaleInput`: lower the
time scale by `timeScaleStep * deltaTime`, floored at `0.1`. -/
def handleSlowDown (s : SolarSystem) (deltaTime : ℚ) : SolarSystem :=
  s.setTimeScale (max (1 / 10) (s.getTimeScale - timeScaleStep * deltaTime))

end InputHandler

/-! Helper lemmas about the vector instances and list combinators. -/

@[simp] theorem add2_def (a b : Vec2) : a + b = Vec2.add a b := rfl

@[simp] theorem sub2_def (a b : Vec2) : a - b = Vec2.sub a b := rfl

@[simp] theorem neg2_def (a : Vec2) : -a = Vec2.neg a := rfl

@[simp] theorem smul2_def (a : Vec2) (c : ℚ) : a * c = Vec2.smul a c := rfl

@[simp] theorem sdiv2_def (a : Vec2) (c : ℚ) : a / c = Vec2.sdiv a c := rfl

@[simp] theorem add3_def (a b : Vec3) : a + b = Vec3.add a b := rfl

@[simp] theorem sub3_def (a b : Vec3) : a - b = Vec3.sub a b := rfl

@[simp] theorem neg3_def (a : Vec3) : -a = Vec3.neg a := rfl

@[simp] theorem smul3_def (a : Vec3) (c : ℚ) : a * c = Vec3.smul a c := rfl

@[simp] theorem sdiv3_def (a : Vec3) (c : ℚ) : a / c = Vec3.sdiv a c := rfl

theorem vec2_sub_self (p : Vec2) : Vec2.sub p p = Vec2.zero := by
  simp [Vec2.sub, Vec2.zero]

theorem vec2_smul_zero_left (c : ℚ) : Vec2.smul Vec2.zero c = Vec2.zero := by
  simp [Vec2.smul, Vec2.zero]

theorem vec3_sub_self (p : Vec3) : Vec3.sub p p = Vec3.zero := by
  simp [Vec3.sub, Vec3.zero]

theorem vec3_smul_zero_left (c : ℚ) : Vec3.smul Vec3.zero c = Vec3.zero := by
  simp [Vec3.smul, Vec3.zero]

theorem vec3_add_zero_right (a : Vec3) : Vec3.add a Vec3.zero = a := by
  simp [Vec3.add, Vec3.zero]

theorem getD_set_self {α : Type} (l : List α) (i : ℕ) (a d : α) (h : i < l.length) :
    (l.set i a).getD i d = a := by
  induction l generalizing i with
  | nil => simp at h
  | cons x xs ih =>
    cases i with
    | zero => rfl
    | succ n => simpa using ih n (by simpa using h)

theorem getD_set_ne {α : Type} (l : List α) (i j : ℕ) (a d : α) (h : i ≠ j) :
    (l.set i a).getD j d = l.getD j d := by
  induction l generalizing i j with
  | nil => rfl
  | cons x xs ih =>
    cases i with
    | zero =>
      cases j with
      | zero => exact absurd rfl h
      | succ m => rfl
    | succ n =>
      cases j with
      | zero => rfl
      | succ m => simpa using ih n m (fun hnm => h (by omega))

theorem set_getD_self {α : Type} (l : List α) (i : ℕ) (d : α) :
    l.set i (l.getD i d) = l := by
  induction l generalizing i with
  | nil => rfl
  | cons x xs ih =>
    cases i with
    | zero => rfl
    | succ n => simpa using ih n

theorem map_getD_range {α β : Type} (d : α) (f : α → β) (l : List α) :
    (List.range l.length).map (fun k => f (l.getD k d)) = l.map f := by
  induction l with
  | nil => rfl
  | cons x xs ih =>
    simp only [List.length_cons, List.range_succ_eq_map, List.map_cons, List.map_map]
    exact congrArg (f x :: ·) ih

theorem foldl_add_shift {β : Type} (g : β → ℚ) (l : List β) (init : ℚ) :
    l.foldl (fun a x => a + g x) init = init + (l.map g).sum := by
  induction l generalizing init with
  | nil => simp
  | cons x xs ih => simp [ih (init + g x)]; ring

theorem foldl_length_invariant {α β : Type} (step : List α → β → List α)
    (h : ∀ acc x, (step acc x).length = acc.length) (l : List β) (acc : List α) :
    (l.foldl step acc).length = acc.length := by
  induction l generalizing acc with
  | nil => rfl
  | cons x xs ih => rw [List.foldl_cons, ih, h]

theorem foldl_map_invariant {α β γ : Type} (f : α → γ) (step : List α → β → List α)
    (h : ∀ acc x, (step acc x).map f = acc.map f) (l : List β) (acc : List α) :
    (l.foldl step acc).map f = acc.map f := by
  induction l generalizing acc with
  | nil => rfl
  | cons x xs ih => rw [List.foldl_cons, ih, h]

theorem sum_map_set {α : Type} (f : α → ℚ) (l : List α) (i : ℕ) (a d : α) (h : i < l.length) :
    ((l.set i a).map f).sum = (l.map f).sum - f (l.getD i d) + f a := by
  induction l generalizing i with
  | nil => simp at h
  | cons x xs ih =>
    cases i with
    | zero =>
      simp only [List.set_cons_zero, List.map_cons, List.sum_cons, List.getD_cons_zero]
      ring
    | succ n =>
      simp only [List.set_cons_succ, List.map_cons, List.sum_cons, List.getD_cons_succ]
      rw [ih n (by simpa using h)]
      ring

/-- Witness state with no bodies, unpaused, planar mode. -/
def sEmpty : SolarSystem := ⟨[], false, 1, false, []⟩

/-- Witness body with simple planar state. -/
def bodyW1 : CelestialBody := CelestialBody.make "W" 2 1 ⟨3, 4⟩ ⟨5, 6⟩

/-- C1: for every body with mass m and accumulated planar force f and every
elapsed time dt, the planar update first multiplies dt by the fixed
time-scale factor 86400, computes acceleration f/m, sets
velocity' = velocity + (f/m)*(dt*86400), and afterwards
position' = position + velocity'*(dt*86400), i.e. the position update uses
the already-updated velocity (semi-implicit Euler order). -/
theorem c1_planar_update_semi_implicit_euler (b : CelestialBody) (dt : ℚ)
    (hm : 0 < b.mass) :
    Physics.TIME_SCALE = 86400 ∧
    (b.update dt).velocity = Vec2.add b.velocity (Vec2.smul (Vec2.sdiv b.force b.mass) (dt * 86400)) ∧
    (b.update dt).position = Vec2.add b.position (Vec2.smul ((b.update dt).velocity) (dt * 86400)) := by
  refine ⟨rfl, ?_, ?_⟩ <;> simp [CelestialBody.update, Physics.TIME_SCALE]

/-- Witness for C1: the characterization evaluated on a concrete body. -/
theorem c1_planar_update_semi_implicit_euler_witness :
    0 < bodyW1.mass ∧
    (bodyW1.update 1).velocity =
      Vec2.add bodyW1.velocity (Vec2.smul (Vec2.sdiv bodyW1.force bodyW1.mass) (1 * 86400)) := by
  have hm : 0 < bodyW1.mass := by norm_num [bodyW1, CelestialBody.make]
  exact ⟨hm, (c1_planar_update_semi_implicit_euler bodyW1 1 hm).2.1⟩

/-- C4 counterexample: `setTimeScale` stores its argument unchanged, so an
input below the configured lower bound 0.1 is not raised to the bound, and
`getTimeScale` can return a non-positive value. -/
theorem c4_set_time_scale_no_clamp_counterexample :
    (sEmpty.setTimeScale (1 / 20)).getTimeScale = 1 / 20 ∧
    ((1 : ℚ) / 20 < 1 / 10) ∧
    (sEmpty.setTimeScale (1 / 20)).getTimeScale ≠ 1 / 10 ∧
    (sEmpty.setTimeScale (-1)).getTimeScale = -1 ∧
    ¬ (0 < (sEmpty.setTimeScale (-1)).getTimeScale) := by
  refine ⟨rfl, by norm_num, ?_, rfl, ?_⟩ <;>
    norm_num [sEmpty, SolarSystem.setTimeScale, SolarSystem.getTimeScale]

/-- C4 amended: `setTimeScale(v)` stores v exactly as given for every input
(no clamping, non-positive values included); the clamping into [0.1, 10.0]
is performed by the input handler, whose speed-up path caps the new scale
at 10.0 and whose slow-down path floors it at 0.1. -/
theorem c4_time_scale_amended (s : SolarSystem) (v dt : ℚ) :
    (s.setTimeScale v).getTimeScale = v ∧
    (InputHandler.handleSpeedUp s dt).getTimeScale ≤ 10 ∧
    (1 / 10 : ℚ) ≤ (InputHandler.handleSlowDown s dt).getTimeScale := by
  refine ⟨rfl, ?_, ?_⟩
  · exact min_le_left _ _
  · exact le_max_left _ _

/-- Witness state that is paused. -/
def sPaused : SolarSystem := ⟨[bodyW1], true, 1, false, []⟩

/-- C6: while the paused flag is set, any number of update calls with any
elapsed-time arguments leaves the whole simulation state (hence every
body's position, velocity and accumulated force) unchanged. -/
theorem c6_pause_invariance (sq : ℚ → ℚ) (s : SolarSystem) (dts : List ℚ)
    (h : s.paused = true) :
    dts.foldl (SolarSystem.update sq) s = s := by
  induction dts with
  | nil => rfl
  | cons dt rest ih => simpa [SolarSystem.update, h] using ih

/-- Witness for C6: two paused steps on a concrete state change nothing. -/
theorem c6_pause_invariance_witness :
    sPaused.paused = true ∧ [1, 2].foldl (SolarSystem.update sqrtW) sPaused = sPaused :=
  ⟨rfl, c6_pause_invariance sqrtW sPaused [1, 2] rfl⟩

/-- C7: the pairwise planar force computation uses a separation clamped to
no smaller than the floor 1e6, the derived divisor is strictly positive
(never a division by true zero), and at exactly zero separation the
returned force is the zero vector because the unit direction of a zero
displacement is the zero vector. -/
theorem c7_distance_floor_safety (sq : ℚ → ℚ) (b1 b2 : CelestialBody)
    (h0 : sq 0 = 0) :
    1000000 ≤ CelestialBody.clampedDistance sq b1 b2 ∧
    0 < CelestialBody.distanceMeters sq b1 b2 ∧
    (b1.position = b2.position →
      CelestialBody.calculateGravitationalForce sq b1 b2 = Vec2.zero) := by
  have hclamp : 1000000 ≤ CelestialBody.clampedDistance sq b1 b2 := by
    unfold CelestialBody.clampedDistance
    split
    · exact le_refl _
    · exact le_of_not_lt (by assumption)
  refine ⟨hclamp, ?_, ?_⟩
  · unfold CelestialBody.distanceMeters
    apply div_pos (lt_of_lt_of_le (by norm_num) hclamp)
    norm_num [Physics.DISTANCE_SCALE]
  · intro h
    have hz : Vec2.sub b2.position b1.position = Vec2.zero := by
      rw [h]; exact vec2_sub_self _
    simp [CelestialBody.calculateGravitationalForce, Physics.normalize,
      Physics.magnitude, hz, Vec2.zero, h0, Vec2.smul]

/-- Witness for C7: evaluated with the concrete square-root model on two
bodies at the same position. -/
theorem c7_distance_floor_safety_witness :
    sqrtW 0 = 0 ∧
    (bodyW1.position = bodyW1.position →
      CelestialBody.calculateGravitationalForce sqrtW bodyW1 bodyW1 = Vec2.zero) := by
  have h0 : sqrtW 0 = 0 := by simp [sqrtW]
  exact ⟨h0, (c7_distance_floor_safety sqrtW bodyW1 bodyW1 h0).2.2⟩

/-- C10: entering spatial mode seeds every body's spatial position and
velocity from its planar state with zero z component and sets the previous
spatial position to position3D - velocity3D * 0.016; the spatial setters
keep the planar fields equal to the (x, y) projection of the spatial
value, while the planar setters touch only the planar fields. -/
theorem c10_spatial_seeding_and_setters (s : SolarSystem) :
    (s.set3DMode true).is3DMode = true ∧
    (s.set3DMode true).bodies = s.bodies.map SolarSystem.seed3D ∧
    (∀ b : CelestialBody,
      (SolarSystem.seed3D b).position3D = ⟨b.position.x, b.position.y, 0⟩ ∧
      (SolarSystem.seed3D b).velocity3D = ⟨b.velocity.x, b.velocity.y, 0⟩ ∧
      (SolarSystem.seed3D b).previousPosition3D =
        Vec3.sub (SolarSystem.seed3D b).position3D
          (Vec3.smul (SolarSystem.seed3D b).velocity3D (16 / 1000)) ∧
      (SolarSystem.seed3D b).position = b.position ∧
      (SolarSystem.seed3D b).velocity = b.velocity) ∧
    (∀ (b : CelestialBody) (p : Vec3),
      b.setPosition3D p = { b with position3D := p, position := p.to2D }) ∧
    (∀ (b : CelestialBody) (v : Vec3),
      b.setVelocity3D v = { b with velocity3D := v, velocity := v.to2D }) ∧
    (∀ (b : CelestialBody) (p : Vec2), b.setPosition p = { b with position := p }) ∧
    (∀ (b : CelestialBody) (v : Vec2), b.setVelocity v = { b with velocity := v }) := by
  refine ⟨rfl, rfl, fun b => ⟨rfl, rfl, rfl, rfl, rfl⟩,
    fun b p => rfl, fun b v => rfl, fun b p => rfl, fun b v => rfl⟩

theorem update3D_preserves_force (sq : ℚ → ℚ) (bodies : List CelestialBody) (dt : ℚ)
    (b : CelestialBody) :
    (CelestialBody.update3D sq bodies dt b).force = b.force ∧
    (CelestialBody.update3D sq bodies dt b).force3D = b.force3D := by
  unfold CelestialBody.update3D
  split <;> exact ⟨rfl, rfl⟩

theorem calc3D_self_eq_zero (sq : ℚ → ℚ) (h0 : sq 0 = 0) (b : CelestialBody) :
    CelestialBody.calculateGravitationalForce3D sq b b = Vec3.zero := by
  simp [CelestialBody.calculateGravitationalForce3D, Vec3.magnitude, Vec3.normalized,
    vec3_sub_self, Vec3.zero, h0, Vec3.smul]

/-- C8: in spatial mode, `update3D` on a body lighter than the solar-mass
reference 1.989e30 integrates the net force it recomputes over the
supplied list (ignoring the deposited accumulators, which it leaves
untouched) by explicit Euler with the elapsed time damped by the factor
0.1, records the pre-step spatial position, and projects the new spatial
position onto the planar position; the recomputed net force over a list
containing the body itself equals the net force over the other bodies
(the self term is zero); a body at or above the threshold is left
entirely unchanged. -/
theorem c8_spatial_update_characterization (sq : ℚ → ℚ)
    (bodies l1 l2 : List CelestialBody) (b : CelestialBody) (dt : ℚ) :
    (b.mass < 1989 * 10 ^ 27 →
      (CelestialBody.update3D sq bodies dt b).velocity3D =
        Vec3.add b.velocity3D
          (Vec3.smul (Vec3.sdiv (CelestialBody.netForce3D sq b bodies) b.mass)
            (dt * (1 / 10))) ∧
      (CelestialBody.update3D sq bodies dt b).position3D =
        Vec3.add b.position3D
          (Vec3.smul (CelestialBody.update3D sq bodies dt b).velocity3D (dt * (1 / 10))) ∧
      (CelestialBody.update3D sq bodies dt b).previousPosition3D = b.position3D ∧
      (CelestialBody.update3D sq bodies dt b).position =
        ⟨(CelestialBody.update3D sq bodies dt b).position3D.x,
          (CelestialBody.update3D sq bodies dt b).position3D.y⟩ ∧
      (CelestialBody.update3D sq bodies dt b).force = b.force ∧
      (CelestialBody.update3D sq bodies dt b).force3D = b.force3D) ∧
    (sq 0 = 0 →
      CelestialBody.netForce3D sq b (l1 ++ b :: l2) =
        CelestialBody.netForce3D sq b (l1 ++ l2)) ∧
    (1989 * 10 ^ 27 ≤ b.mass → CelestialBody.update3D sq bodies dt b = b) := by
  refine ⟨?_, ?_, ?_⟩
  · intro hm
    unfold CelestialBody.update3D
    rw [if_pos hm]
    exact ⟨rfl, rfl, rfl, rfl, rfl, rfl⟩
  · intro h0
    unfold CelestialBody.netForce3D
    rw [List.foldl_append, List.foldl_append, List.foldl_cons,
      calc3D_self_eq_zero sq h0 b, add3_def, vec3_add_zero_right]
  · intro hM
    rw [CelestialBody.update3D, if_neg (not_lt.mpr hM)]

/-- Witness anchor body at the solar-mass scale. -/
def anchorW : CelestialBody := CelestialBody.make "Anchor" (2 * 10 ^ 30) 1 ⟨0, 0⟩ ⟨0, 0⟩

/-- Witness for C8: the three parts applied at concrete inputs. -/
theorem c8_spatial_update_characterization_witness :
    bodyW1.mass < 1989 * 10 ^ 27 ∧
    (CelestialBody.update3D sqrtW [anchorW] 1 bodyW1).previousPosition3D =
      bodyW1.position3D ∧
    sqrtW 0 = 0 ∧
    CelestialBody.netForce3D sqrtW bodyW1 ([] ++ bodyW1 :: []) =
      CelestialBody.netForce3D sqrtW bodyW1 ([] ++ []) ∧
    1989 * 10 ^ 27 ≤ anchorW.mass ∧
    CelestialBody.update3D sqrtW [anchorW] 1 anchorW = anchorW := by
  have hm : bodyW1.mass < 1989 * 10 ^ 27 := by norm_num [bodyW1, CelestialBody.make]
  have h0 : sqrtW 0 = 0 := by simp [sqrtW]
  have hM : 1989 * 10 ^ 27 ≤ anchorW.mass := by norm_num [anchorW, CelestialBody.make]
  exact ⟨hm,
    ((c8_spatial_update_characterization sqrtW [anchorW] [] [] bodyW1 1).1 hm).2.2.1, h0,
    (c8_spatial_update_characterization sqrtW [anchorW] [] [] bodyW1 1).2.1 h0, hM,
    (c8_spatial_update_characterization sqrtW [anchorW] [] [] anchorW 1).2.2 hM⟩

/-- Witness body with the solar-scale mass carrying a nonzero accumulated
force, used to exhibit that the spatial step does not reset accumulators. -/
def bigW : CelestialBody :=
  { CelestialBody.make "S" (2 * 10 ^ 30) 1 ⟨0, 0⟩ ⟨0, 0⟩ with force := ⟨1, 2⟩ }

/-- Witness state in spatial mode holding `bigW`. -/
def sC3 : SolarSystem := ⟨[bigW], false, 1, true, []⟩

/-- C3 counterexample: a completed non-paused spatial-mode step leaves a
nonzero accumulated planar force in place, so the accumulated force is
not the zero vector after the step. -/
theorem c3_forces_not_reset_in_spatial_counterexample :
    sC3.paused = false ∧ sC3.is3DMode = true ∧
    ((SolarSystem.update sqrtW sC3 1).bodies.getD 0 default).force = ⟨1, 2⟩ ∧
    ((SolarSystem.update sqrtW sC3 1).bodies.getD 0 default).force ≠ Vec2.zero := by
  have hlt : ¬ ((2 * 10 ^ 30 : ℚ) < 1989 * 10 ^ 27) := by norm_num
  have hforce : ((SolarSystem.update sqrtW sC3 1).bodies.getD 0 default).force = ⟨1, 2⟩ := by
    simp [SolarSystem.update, SolarSystem.updatePhysics, SolarSystem.update3DPass,
      CelestialBody.update3D, sC3, bigW, CelestialBody.make, List.range_succ, hlt]
  refine ⟨rfl, rfl, hforce, ?_⟩
  rw [hforce]
  intro h
  have := congrArg Vec2.x h
  norm_num [Vec2.zero] at this

/-- C3 amended: after every completed non-paused planar-mode step both
force accumulators of every body equal the zero vector; a completed
non-paused spatial-mode step leaves both accumulators of every body
unchanged (the orchestration level resets forces only in planar mode). -/
theorem c3_force_reset_amended (sq : ℚ → ℚ) (s : SolarSystem) (dt : ℚ) :
    (s.paused = false → s.is3DMode = false →
      ∀ b ∈ (SolarSystem.update sq s dt).bodies,
        b.force = Vec2.zero ∧ b.force3D = Vec3.zero) ∧
    (s.paused = false → s.is3DMode = true →
      (SolarSystem.update sq s dt).bodies.map (fun b => b.force) =
        s.bodies.map (fun b => b.force) ∧
      (SolarSystem.update sq s dt).bodies.map (fun b => b.force3D) =
        s.bodies.map (fun b => b.force3D)) := by
  constructor
  · intro hp hm b hb
    simp only [SolarSystem.update, hp, SolarSystem.updatePhysics, hm,
      Bool.false_eq_true, if_false] at hb
    obtain ⟨a, _, rfl⟩ := List.mem_map.1 hb
    exact ⟨rfl, rfl⟩
  · intro hp hm
    have hbodies : (SolarSystem.update sq s dt).bodies =
        SolarSystem.update3DPass sq s.bodies (dt * s.timeScale) := by
      simp [SolarSystem.update, hp, SolarSystem.updatePhysics, hm]
    rw [hbodies]
    constructor
    · apply foldl_map_invariant
      intro acc i
      rw [List.map_set, (update3D_preserves_force sq acc (dt * s.timeScale) _).1]
      have hx : (List.map (fun b => b.force) acc).getD i ((default : CelestialBody).force) =
          (acc.getD i default).force := List.getD_map acc default (fun b => b.force)
      rw [← hx, set_getD_self]
    · apply foldl_map_invariant
      intro acc i
      rw [List.map_set, (update3D_preserves_force sq acc (dt * s.timeScale) _).2]
      have hx : (List.map (fun b => b.force3D) acc).getD i ((default : CelestialBody).force3D) =
          (acc.getD i default).force3D := List.getD_map acc default (fun b => b.force3D)
      rw [← hx, set_getD_self]

/-- Witness planar-mode state with one body carrying a nonzero force. -/
def sC3planar : SolarSystem := ⟨[bigW], false, 1, false, []⟩

/-- Witness for C3 (amended): both parts applied at concrete states. -/
theorem c3_force_reset_amended_witness :
    sC3planar.paused = false ∧ sC3planar.is3DMode = false ∧
    (∀ b ∈ (SolarSystem.update sqrtW sC3planar 1).bodies,
      b.force = Vec2.zero ∧ b.force3D = Vec3.zero) ∧
    sC3.paused = false ∧ sC3.is3DMode = true ∧
    (SolarSystem.update sqrtW sC3 1).bodies.map (fun b => b.force) =
      sC3.bodies.map (fun b => b.force) :=
  ⟨rfl, rfl, (c3_force_reset_amended sqrtW sC3planar 1).1 rfl rfl, rfl, rfl,
    ((c3_force_reset_amended sqrtW sC3 1).2 rfl rfl).1⟩

/-! Length preservation of the physics passes. -/

theorem applyPairForces_length (sq : ℚ → ℚ) (bs : List CelestialBody) (i j : ℕ) :
    (SolarSystem.applyPairForces sq bs i j).length = bs.length := by
  simp [SolarSystem.applyPairForces]

theorem calculateGravitationalForces_length (sq : ℚ → ℚ) (bs : List CelestialBody) :
    (SolarSystem.calculateGravitationalForces sq bs).length = bs.length := by
  unfold SolarSystem.calculateGravitationalForces
  apply foldl_length_invariant
  intro acc i
  apply foldl_length_invariant
  intro acc2 j
  exact applyPairForces_length sq acc2 i j

theorem update3DPass_length (sq : ℚ → ℚ) (bs : List CelestialBody) (dt : ℚ) :
    (SolarSystem.update3DPass sq bs dt).length = bs.length := by
  unfold SolarSystem.update3DPass
  apply foldl_length_invariant
  intro acc i
  exact List.length_set acc i _

theorem update_preserves_shape (sq : ℚ → ℚ) (s : SolarSystem) (dt : ℚ) :
    (SolarSystem.update sq s dt).initialConditions = s.initialConditions ∧
    (SolarSystem.update sq s dt).bodies.length = s.bodies.length := by
  unfold SolarSystem.update SolarSystem.updatePhysics
  split
  · exact ⟨rfl, rfl⟩
  · split
    · exact ⟨rfl, update3DPass_length sq s.bodies _⟩
    · refine ⟨rfl, ?_⟩
      simpa using calculateGravitationalForces_length sq s.bodies

theorem foldl_update_preserves_shape (sq : ℚ → ℚ) (dts : List ℚ) (s : SolarSystem) :
    (dts.foldl (SolarSystem.update sq) s).initialConditions = s.initialConditions ∧
    (dts.foldl (SolarSystem.update sq) s).bodies.length = s.bodies.length := by
  induction dts generalizing s with
  | nil => exact ⟨rfl, rfl⟩
  | cons dt rest ih =>
    rw [List.foldl_cons]
    refine ⟨?_, ?_⟩
    · rw [(ih (SolarSystem.update sq s dt)).1, (update_preserves_shape sq s dt).1]
    · rw [(ih (SolarSystem.update sq s dt)).2, (update_preserves_shape sq s dt).2]

/-! Restoration lemmas for C5. -/

theorem restoreBody_idem (ic : InitialCondition) (b : CelestialBody) :
    SolarSystem.restoreBody ic (SolarSystem.restoreBody ic b) =
      SolarSystem.restoreBody ic b := rfl

theorem zipWith_restore_idem (ics : List InitialCondition) :
    ∀ bs : List CelestialBody,
      List.zipWith SolarSystem.restoreBody ics
          (List.zipWith SolarSystem.restoreBody ics bs) =
        List.zipWith SolarSystem.restoreBody ics bs := by
  induction ics with
  | nil => intro bs; rfl
  | cons ic ics ih =>
    intro bs
    cases bs with
    | nil => rfl
    | cons b bs =>
      simp only [List.zipWith_cons_cons]
      exact congrArg₂ List.cons (restoreBody_idem ic b) (ih bs)

theorem zipWith_restore_map_position (ics : List InitialCondition) :
    ∀ bs : List CelestialBody, ics.length = bs.length →
      (List.zipWith SolarSystem.restoreBody ics bs).map (fun b => b.position) =
        ics.map (fun ic => ic.position) := by
  induction ics with
  | nil => intro bs _; rfl
  | cons ic ics ih =>
    intro bs h
    cases bs with
    | nil => simp at h
    | cons b bs =>
      simp only [List.zipWith_cons_cons, List.map_cons]
      exact congrArg₂ List.cons rfl (ih bs (by simpa using h))

theorem zipWith_restore_map_velocity (ics : List InitialCondition) :
    ∀ bs : List CelestialBody, ics.length = bs.length →
      (List.zipWith SolarSystem.restoreBody ics bs).map (fun b => b.velocity) =
        ics.map (fun ic => ic.velocity) := by
  induction ics with
  | nil => intro bs _; rfl
  | cons ic ics ih =>
    intro bs h
    cases bs with
    | nil => simp at h
    | cons b bs =>
      simp only [List.zipWith_cons_cons, List.map_cons]
      exact congrArg₂ List.cons rfl (ih bs (by simpa using h))

theorem mem_zipWith_restore_forces (ics : List InitialCondition) :
    ∀ (bs : List CelestialBody) (b : CelestialBody),
      b ∈ List.zipWith SolarSystem.restoreBody ics bs →
      b.force = Vec2.zero ∧ b.force3D = Vec3.zero := by
  induction ics with
  | nil => intro bs b hb; simp at hb
  | cons ic ics ih =>
    intro bs b hb
    cases bs with
    | nil => simp at hb
    | cons x xs =>
      rcases List.mem_cons.1 hb with rfl | h
      · exact ⟨rfl, rfl⟩
      · exact ih xs b h

/-- C5: with a snapshot holding exactly one entry per body, reset after
any number of steps restores every body's planar position and velocity to
the snapshot values and zeroes both force accumulators; reset is
idempotent; and with a size mismatch between the snapshot and the body
list, reset changes nothing at all. -/
theorem c5_reset_restores_snapshot (sq : ℚ → ℚ) (s : SolarSystem) (dts : List ℚ) :
    (s.initialConditions.length = s.bodies.length →
      ((dts.foldl (SolarSystem.update sq) s).reset).bodies.map (fun b => b.position) =
        s.initialConditions.map (fun ic => ic.position) ∧
      ((dts.foldl (SolarSystem.update sq) s).reset).bodies.map (fun b => b.velocity) =
        s.initialConditions.map (fun ic => ic.velocity) ∧
      ∀ b ∈ ((dts.foldl (SolarSystem.update sq) s).reset).bodies,
        b.force = Vec2.zero ∧ b.force3D = Vec3.zero) ∧
    ((dts.foldl (SolarSystem.update sq) s).reset).reset =
      (dts.foldl (SolarSystem.update sq) s).reset ∧
    (s.initialConditions.length ≠ s.bodies.length →
      (dts.foldl (SolarSystem.update sq) s).reset = dts.foldl (SolarSystem.update sq) s) := by
  have hic := (foldl_update_preserves_shape sq dts s).1
  have hlen := (foldl_update_preserves_shape sq dts s).2
  refine ⟨?_, ?_, ?_⟩
  · intro h
    have hcond : ¬ ((dts.foldl (SolarSystem.update sq) s).initialConditions.length ≠
        (dts.foldl (SolarSystem.update sq) s).bodies.length) := by
      rw [hic, hlen]; exact fun hne => hne h
    have hreset : ((dts.foldl (SolarSystem.update sq) s).reset).bodies =
        List.zipWith SolarSystem.restoreBody s.initialConditions
          (dts.foldl (SolarSystem.update sq) s).bodies := by
      rw [SolarSystem.reset, SolarSystem.restoreInitialConditions, if_neg hcond, hic]
    have hlen' : s.initialConditions.length =
        (dts.foldl (SolarSystem.update sq) s).bodies.length := by rw [hlen]; exact h
    refine ⟨?_, ?_, ?_⟩
    · rw [hreset]; exact zipWith_restore_map_position s.initialConditions _ hlen'
    · rw [hreset]; exact zipWith_restore_map_velocity s.initialConditions _ hlen'
    · intro b hb
      rw [hreset] at hb
      exact mem_zipWith_restore_forces s.initialConditions _ b hb
  · by_cases hc : (dts.foldl (SolarSystem.update sq) s).initialConditions.length =
        (dts.foldl (SolarSystem.update sq) s).bodies.length
    · have hcond : ¬ ((dts.foldl (SolarSystem.update sq) s).initialConditions.length ≠
          (dts.foldl (SolarSystem.update sq) s).bodies.length) := fun hne => hne hc
      have h1 : ((dts.foldl (SolarSystem.update sq) s).reset) =
          { dts.foldl (SolarSystem.update sq) s with
            bodies := List.zipWith SolarSystem.restoreBody
              (dts.foldl (SolarSystem.update sq) s).initialConditions
              (dts.foldl (SolarSystem.update sq) s).bodies } := by
        rw [SolarSystem.reset, SolarSystem.restoreInitialConditions, if_neg hcond]
      have hc2 : ¬ (((dts.foldl (SolarSystem.update sq) s).reset).initialConditions.length ≠
          ((dts.foldl (SolarSystem.update sq) s).reset).bodies.length) := by
        rw [h1]
        simp only [List.length_zipWith]
        omega
      rw [SolarSystem.reset, SolarSystem.restoreInitialConditions, if_neg hc2]
      rw [h1]
      simp [zipWith_restore_idem]
    · have h1 : ((dts.foldl (SolarSystem.update sq) s).reset) =
          dts.foldl (SolarSystem.update sq) s := by
        rw [SolarSystem.reset, SolarSystem.restoreInitialConditions, if_pos hc]
      rw [h1, h1]
  · intro h
    have hcond : (dts.foldl (SolarSystem.update sq) s).initialConditions.length ≠
        (dts.foldl (SolarSystem.update sq) s).bodies.length := by
      rw [hic, hlen]; exact h
    rw [SolarSystem.reset, SolarSystem.restoreInitialConditions, if_pos hcond]

/-- Witness snapshot entry. -/
def icW : InitialCondition := ⟨⟨7, 8⟩, ⟨9, 10⟩⟩

/-- Witness state with a matching one-entry snapshot. -/
def sC5 : SolarSystem := ⟨[bodyW1], false, 1, false, [icW]⟩

/-- Witness for C5: applied to the concrete matching state after one step. -/
theorem c5_reset_restores_snapshot_witness :
    sC5.initialConditions.length = sC5.bodies.length ∧
    ((([1] : List ℚ).foldl (SolarSystem.update sqrtW) sC5).reset).bodies.map
        (fun b => b.position) =
      sC5.initialConditions.map (fun ic => ic.position) :=
  ⟨rfl, ((c5_reset_restores_snapshot sqrtW sC5 [1]).1 rfl).1⟩

/-! Force-sum machinery for C2. -/

/-- Sum of the accumulated planar forces of a body list, componentwise;
used to state that a force-accumulation pass cancels exactly. -/
def totalForce (bs : List CelestialBody) : Vec2 :=
  ⟨(bs.map (fun b => b.force.x)).sum, (bs.map (fun b => b.force.y)).sum⟩

theorem addForce_force (b : CelestialBody) (f : Vec2) :
    (b.addForce f).force = Vec2.add b.force f := rfl

theorem sum_comp_applyPairForces (sq : ℚ → ℚ) (bs : List CelestialBody) (i j : ℕ)
    (hi : i < bs.length) (hj : j < bs.length) (hij : i ≠ j)
    (g : Vec2 → ℚ) (hg : ∀ v w, g (Vec2.add v w) = g v + g w)
    (hgneg : ∀ v, g (Vec2.neg v) = -g v) :
    ((SolarSystem.applyPairForces sq bs i j).map (fun b => g b.force)).sum =
      (bs.map (fun b => g b.force)).sum := by
  simp only [SolarSystem.applyPairForces, neg2_def]
  set F := CelestialBody.calculateGravitationalForce sq (bs.getD i default)
    (bs.getD j default) with hF
  set bs1 := bs.set i ((bs.getD i default).addForce F) with hbs1
  have hlen1 : bs1.length = bs.length := List.length_set bs i _
  have h1 : ((bs1.set j ((bs1.getD j default).addForce F.neg)).map
        (fun b : CelestialBody => g b.force)).sum =
      (bs1.map (fun b : CelestialBody => g b.force)).sum -
        g (bs1.getD j default).force + g ((bs1.getD j default).addForce F.neg).force :=
    sum_map_set _ bs1 j _ default (by rw [hlen1]; exact hj)
  have h2 : (bs1.map (fun b : CelestialBody => g b.force)).sum =
      (bs.map (fun b : CelestialBody => g b.force)).sum -
        g (bs.getD i default).force + g ((bs.getD i default).addForce F).force :=
    sum_map_set _ bs i _ default hi
  have h3 : bs1.getD j default = bs.getD j default :=
    getD_set_ne bs i j _ default hij
  rw [h1, h2, h3, addForce_force, addForce_force, hg, hg, hgneg]
  ring

theorem totalForce_applyPairForces (sq : ℚ → ℚ) (bs : List CelestialBody) (i j : ℕ)
    (hi : i < bs.length) (hj : j < bs.length) (hij : i ≠ j) :
    totalForce (SolarSystem.applyPairForces sq bs i j) = totalForce bs := by
  unfold totalForce
  rw [sum_comp_applyPairForces sq bs i j hi hj hij (fun v => v.x)
      (fun v w => rfl) (fun v => rfl),
    sum_comp_applyPairForces sq bs i j hi hj hij (fun v => v.y)
      (fun v w => rfl) (fun v => rfl)]

theorem totalForce_inner_fold (sq : ℚ → ℚ) (i : ℕ) (js : List ℕ) :
    ∀ acc : List CelestialBody, i < acc.length → (∀ j ∈ js, i < j ∧ j < acc.length) →
      totalForce (js.foldl (fun acc2 j => SolarSystem.applyPairForces sq acc2 i j) acc) =
          totalForce acc ∧
        (js.foldl (fun acc2 j => SolarSystem.applyPairForces sq acc2 i j) acc).length =
          acc.length := by
  induction js with
  | nil => intro acc _ _; exact ⟨rfl, rfl⟩
  | cons j js ih =>
    intro acc hi hbound
    obtain ⟨hij, hjlen⟩ := hbound j (List.mem_cons_self j js)
    have hlen := applyPairForces_length sq acc i j
    have ihres := ih (SolarSystem.applyPairForces sq acc i j) (hlen ▸ hi)
      (fun j' hj' => ⟨(hbound j' (List.mem_cons_of_mem j hj')).1,
        hlen ▸ (hbound j' (List.mem_cons_of_mem j hj')).2⟩)
    rw [List.foldl_cons]
    refine ⟨?_, ?_⟩
    · rw [ihres.1, totalForce_applyPairForces sq acc i j hi hjlen (Nat.ne_of_lt hij)]
    · rw [ihres.2, hlen]

theorem totalForce_outer_fold (sq : ℚ → ℚ) (n : ℕ) (is : List ℕ) :
    ∀ acc : List CelestialBody, acc.length = n → (∀ i ∈ is, i < n) →
      totalForce (is.foldl (fun acc i =>
          (List.range' (i + 1) (n - (i + 1))).foldl
            (fun acc2 j => SolarSystem.applyPairForces sq acc2 i j) acc) acc) =
          totalForce acc ∧
        (is.foldl (fun acc i =>
          (List.range' (i + 1) (n - (i + 1))).foldl
            (fun acc2 j => SolarSystem.applyPairForces sq acc2 i j) acc) acc).length = n := by
  induction is with
  | nil => intro acc hlen _; exact ⟨rfl, hlen⟩
  | cons i is ih =>
    intro acc hlen hbound
    have hi : i < n := hbound i (List.mem_cons_self i is)
    have hinner := totalForce_inner_fold sq i (List.range' (i + 1) (n - (i + 1))) acc
      (by rw [hlen]; exact hi)
      (by
        intro j hj
        rw [List.mem_range'_1] at hj
        constructor
        · omega
        · rw [hlen]; omega)
    rw [List.foldl_cons]
    have ihres := ih _ (by rw [hinner.2, hlen])
      (fun i' hi' => hbound i' (List.mem_cons_of_mem i hi'))
    exact ⟨by rw [ihres.1, hinner.1], ihres.2⟩

/-- C2: in one force-accumulation pass, the pair loop body adds to body i
the pairwise force and to body j exactly its negation, for every valid
pair of distinct indices and all separations (the clamped-minimum case
included); consequently the whole pass leaves the componentwise sum of
all accumulated forces unchanged. -/
theorem c2_pairwise_force_newton_third_law (sq : ℚ → ℚ) (bs : List CelestialBody)
    (i j : ℕ) (hi : i < bs.length) (hj : j < bs.length) (hij : i ≠ j) :
    ((SolarSystem.applyPairForces sq bs i j).getD i default).force =
      Vec2.add (bs.getD i default).force
        (CelestialBody.calculateGravitationalForce sq (bs.getD i default)
          (bs.getD j default)) ∧
    ((SolarSystem.applyPairForces sq bs i j).getD j default).force =
      Vec2.add (bs.getD j default).force
        (Vec2.neg (CelestialBody.calculateGravitationalForce sq (bs.getD i default)
          (bs.getD j default))) ∧
    totalForce (SolarSystem.calculateGravitationalForces sq bs) = totalForce bs := by
  refine ⟨?_, ?_, ?_⟩
  · simp only [SolarSystem.applyPairForces, neg2_def]
    rw [getD_set_ne _ j i _ default (fun h => hij h.symm),
      getD_set_self bs i _ default hi, addForce_force]
  · simp only [SolarSystem.applyPairForces, neg2_def]
    rw [getD_set_self _ j _ default (by rw [List.length_set]; exact hj),
      getD_set_ne bs i j _ default hij, addForce_force]
  · unfold SolarSystem.calculateGravitationalForces
    exact (totalForce_outer_fold sq bs.length (List.range bs.length) bs rfl
      (fun i' hi' => List.mem_range.1 hi')).1

/-- Witness for C2: applied to a concrete two-body list at indices 0, 1. -/
theorem c2_pairwise_force_newton_third_law_witness :
    (0 < ([bodyW1, anchorW] : List CelestialBody).length) ∧
    (1 < ([bodyW1, anchorW] : List CelestialBody).length) ∧
    ((SolarSystem.applyPairForces sqrtW [bodyW1, anchorW] 0 1).getD 1 default).force =
      Vec2.add (([bodyW1, anchorW] : List CelestialBody).getD 1 default).force
        (Vec2.neg (CelestialBody.calculateGravitationalForce sqrtW
          (([bodyW1, anchorW] : List CelestialBody).getD 0 default)
          (([bodyW1, anchorW] : List CelestialBody).getD 1 default))) :=
  ⟨by simp, by simp,
    (c2_pairwise_force_newton_third_law sqrtW [bodyW1, anchorW] 0 1 (by simp) (by simp)
      (by omega)).2.1⟩

/-! Energy machinery for C9. -/

/-- Kinetic energy of one body as computed inside `getTotalEnergy`. -/
def kineticEnergy (b : CelestialBody) : ℚ :=
  1 / 2 * b.mass * (b.velocity.x * b.velocity.x + b.velocity.y * b.velocity.y)

/-- Structural sum of the pairwise potential terms, one term per unordered
pair of bodies. -/
def pairPotentialSum (sq : ℚ → ℚ) : List CelestialBody → ℚ
  | [] => 0
  | b :: rest =>
    (rest.map (fun o => SolarSystem.potentialPair sq b o)).sum + pairPotentialSum sq rest

theorem foldl_foldl_add_eq_sum {β γ : Type} (h : β → γ → ℚ) (inner : β → List γ)
    (l : List β) (init : ℚ) :
    l.foldl (fun acc i => (inner i).foldl (fun acc2 j => acc2 + h i j) acc) init =
      init + (l.map (fun i => ((inner i).map (h i)).sum)).sum := by
  induction l generalizing init with
  | nil => simp
  | cons x xs ih =>
    rw [List.foldl_cons, foldl_add_shift (h x) (inner x) init, ih]
    simp only [List.map_cons, List.sum_cons]
    ring

theorem potential_indexed_eq_structural (sq : ℚ → ℚ) (bs : List CelestialBody) :
    ((List.range bs.length).map (fun i =>
      ((List.range' (i + 1) (bs.length - (i + 1))).map (fun j =>
        SolarSystem.potentialPair sq (bs.getD i default) (bs.getD j default))).sum)).sum =
    pairPotentialSum sq bs := by
  induction bs with
  | nil => rfl
  | cons b rest ih =>
    rw [pairPotentialSum, List.length_cons, List.range_succ_eq_map, List.map_cons,
      List.sum_cons, List.map_map]
    congr 1
    · simp only [List.getD_cons_zero, Nat.add_sub_cancel]
      rw [List.range'_eq_map_range, List.map_map]
      have hfun : ((fun j => SolarSystem.potentialPair sq b ((b :: rest).getD j default)) ∘
          (1 + ·)) = fun k => SolarSystem.potentialPair sq b (rest.getD k default) := by
        funext k
        have : 1 + k = k + 1 := by omega
        simp [Function.comp, this]
      rw [hfun, map_getD_range]
    · rw [← ih]
      congr 1
      apply List.map_congr_left
      intro i _
      simp only [Function.comp, Nat.succ_eq_add_one]
      have hlen : rest.length + 1 - (i + 1 + 1) = rest.length - (i + 1) := by omega
      rw [List.getD_cons_succ, hlen,
        List.range'_eq_map_range, List.range'_eq_map_range, List.map_map, List.map_map]
      congr 1
      apply List.map_congr_left
      intro k _
      simp only [Function.comp]
      have hidx : i + 1 + 1 + k = i + 1 + k + 1 := by omega
      rw [hidx, List.getD_cons_succ]

/-- C9 corrected: `getTotalEnergy` is the sum of the kinetic energies plus
one potential term `-G*m1*m2/r` per unordered pair, with each pairwise
distance `r` taken directly from `distanceTo`, i.e. in simulation
(display) units — no conversion to meters happens. -/
theorem c9_total_energy_amended (sq : ℚ → ℚ) (s : SolarSystem) :
    SolarSystem.getTotalEnergy sq s =
      (s.bodies.map kineticEnergy).sum + pairPotentialSum sq s.bodies := by
  unfold SolarSystem.getTotalEnergy
  congr 1
  · unfold SolarSystem.kineticSum
    exact (foldl_add_shift kineticEnergy s.bodies 0).trans (zero_add _)
  · unfold SolarSystem.potentialLoop
    rw [foldl_foldl_add_eq_sum
      (fun i j => SolarSystem.potentialPair sq (s.bodies.getD i default)
        (s.bodies.getD j default))
      (fun i => List.range' (i + 1) (s.bodies.length - (i + 1)))
      (List.range s.bodies.length) 0]
    rw [zero_add, potential_indexed_eq_structural]

/-- Witness bodies one display unit apart with unit masses and zero
velocities. -/
def bodyE1 : CelestialBody := CelestialBody.make "E1" 1 1 ⟨0, 0⟩ ⟨0, 0⟩

/-- Second witness body for the energy counterexample. -/
def bodyE2 : CelestialBody := CelestialBody.make "E2" 1 1 ⟨1, 0⟩ ⟨0, 0⟩

/-- Witness state for the energy counterexample. -/
def sC9 : SolarSystem := ⟨[bodyE1, bodyE2], false, 1, false, []⟩

/-- C9 counterexample: on two unit-mass bodies one display unit apart
(where the square-root model is exact), the source computes the potential
with the display-unit distance, giving -G, while the claimed formula with
the distance converted to meters gives -G/1e9; the two differ. -/
theorem c9_energy_display_units_counterexample :
    sqrtW 1 = 1 ∧
    SolarSystem.getTotalEnergy sqrtW sC9 = -(66743 / 10 ^ 15) ∧
    SolarSystem.getTotalEnergySpecMeters sqrtW sC9 = -(66743 / 10 ^ 24) ∧
    SolarSystem.getTotalEnergy sqrtW sC9 ≠ SolarSystem.getTotalEnergySpecMeters sqrtW sC9 := by
  have h1 : SolarSystem.getTotalEnergy sqrtW sC9 = -(66743 / 10 ^ 15) := by
    norm_num [SolarSystem.getTotalEnergy, SolarSystem.kineticSum, SolarSystem.potentialLoop,
      SolarSystem.potentialPair, CelestialBody.distanceTo, Physics.distance, Physics.G,
      sqrtW, sC9, bodyE1, bodyE2, CelestialBody.make, List.range_succ, List.range'_succ]
  have h2 : SolarSystem.getTotalEnergySpecMeters sqrtW sC9 = -(66743 / 10 ^ 24) := by
    norm_num [SolarSystem.getTotalEnergySpecMeters, SolarSystem.kineticSum,
      CelestialBody.distanceTo, Physics.distance, Physics.G, Physics.DISTANCE_SCALE,
      Physics.pixelsToMeters, sqrtW, sC9, bodyE1, bodyE2, CelestialBody.make,
      List.range_succ, List.range'_succ]
  refine ⟨by norm_num [sqrtW], h1, h2, ?_⟩
  rw [h1, h2]
  norm_num

end Gravity
